import Mathlib

/-!
Verification of the covid19-eda state-metrics notebook (src/us-state-data.ipynb).

The notebook joins daily per-state case counts (virus_df) to census demographics
(census_df), derives the first positive-observation date per state (firstcase),
and computes population-normalized and time-decay-adjusted rates.

Shallow embedding conventions:
- Dates are modelled as day numbers (Nat).  The notebook parses dates with
  pandas to midnight timestamps, so date differences are whole days.
- pandas nullable columns are modelled as Option.
- Real arithmetic is modelled over the rationals.  Division by zero follows the
  Lean convention q / 0 = 0 where the float code would produce inf or NaN; the
  claims about zero population are settled on whether an error is raised
  (the Except value), never on the numeric value of an unguarded quotient.
-/

namespace Covid19

/-- One row of virus_df: a (state, date) observation from the Kaggle daily
file, with the six count columns, each nullable (pandas NaN). -/
structure CaseRecord where
  state : String
  obs_dt : Nat
  positive : Option Int
  negative : Option Int
  pending : Option Int
  hospitalized : Option Int
  death : Option Int
  total : Option Int
deriving Repr, DecidableEq, Inhabited

/-- One row of census_df after the loader renames columns: the state postal
abbreviation and name plus the extracted ACS5 variables. -/
structure CensusRecord where
  state_cd : String
  state_name : String
  population_total : Int
  median_age_male : ℚ
  median_age_female : ℚ
  race_white_alone : Int
  race_afr_alone : Int
  race_asian_alone : Int
  hisp_not_hisp : Int
  transport_drive_alone : Int
  transport_public : Int
  transport_walk : Int
  healthins_none : Int
deriving Repr, DecidableEq, Inhabited

/-- One row of the final `data` frame: the columns selected by the join query
(cell 9) plus the derived columns added by cells 11 and 12. -/
structure MetricRow where
  state_name : String
  state : String
  obs_dt : Nat
  first_obs_dt : Nat
  positive : Int
  negative : Int
  pending : Int
  hospitalized : Int
  death : Int
  total : Int
  population : Int
  median_age_male : ℚ
  median_age_female : ℚ
  population_total : Int
  race_white_alone : Int
  race_afr_alone : Int
  race_asian_alone : Int
  hisp_not_hisp : Int
  transport_drive_alone : Int
  transport_public : Int
  transport_walk : Int
  healthins_none : Int
  time_elapsed_since_firstpos : Int
  days_elapsed_since_firstpos : Int
  pos_per100k : ℚ
  death_per100k : ℚ
  adj_multiplier : ℚ
  adj_pos_per100k : ℚ
  adj_death_per100k : ℚ
deriving DecidableEq, Inhabited

/-- The firstcase query (cell 8):
`select state, min(obs_dt) from virus_df where positive is not null group by 1`.
Viewed as the mapping it defines: a state maps to the minimum observation date
among its records whose positive column is not null (SQL `is not null`, so a
recorded zero qualifies and a missing value does not); a state with no such
record has no row in firstcase, i.e. maps to none. -/
def firstObs (virus_df : List CaseRecord) (st : String) : Option Nat :=
  ((virus_df.filter (fun r => r.state == st && r.positive.isSome)).map
    (fun r => r.obs_dt)).min?

/-- The join of cell 9: `from virus_df as s inner join census_df as c on
s.state = c.state_cd`.  For each case record, every matching census record
produces one joined pair; a case record with no matching census row yields
nothing. -/
def joinRows (virus_df : List CaseRecord) (census_df : List CensusRecord) :
    List (CaseRecord × CensusRecord) :=
  virus_df.flatMap (fun s =>
    (census_df.filter (fun c => c.state_cd == s.state)).map (fun c => (s, c)))

/-- Cell 11: `days_elapsed_since_firstpos` is the whole-day difference between
the observation date and the first positive-observation date. -/
def days_elapsed_since_firstpos (obs_dt first_obs_dt : Nat) : Int :=
  (obs_dt : Int) - (first_obs_dt : Int)

/-- Cell 11: `100000.0 * (count / population)`, the per-100,000 rate. -/
def per100k (count population : Int) : ℚ :=
  100000 * ((count : ℚ) / (population : ℚ))

/-- Cell 12: `adj_multiplier = days_elapsed_since_firstpos /
(1.0 + days_elapsed_since_firstpos)`. -/
def adj_multiplier (days : Int) : ℚ :=
  (days : ℚ) / (1 + (days : ℚ))

/-- The error message pandas raises when `.astype(int)` is applied to a float
column containing a missing value. -/
def errNonFinite : String :=
  "Cannot convert non-finite values (NA or inf) to integer"

/-- One output row, built from a joined (case, census) pair and the
first-observation date of the case record's state (cells 9, 11 and 12).
Count columns are null-coalesced to zero by the select list of cell 9; the
rates divide the coalesced counts by the census population; the adjusted
rates multiply each rate by the decay multiplier. -/
def mkRow (s : CaseRecord) (c : CensusRecord) (f : Nat) : MetricRow :=
  let positive := s.positive.getD 0
  let death := s.death.getD 0
  let days := days_elapsed_since_firstpos s.obs_dt f
  let pos_rate := per100k positive c.population_total
  let death_rate := per100k death c.population_total
  let mult := adj_multiplier days
  { state_name := c.state_name
    state := s.state
    obs_dt := s.obs_dt
    first_obs_dt := f
    positive := positive
    negative := s.negative.getD 0
    pending := s.pending.getD 0
    hospitalized := s.hospitalized.getD 0
    death := death
    total := s.total.getD 0
    population := c.population_total
    median_age_male := c.median_age_male
    median_age_female := c.median_age_female
    population_total := c.population_total
    race_white_alone := c.race_white_alone
    race_afr_alone := c.race_afr_alone
    race_asian_alone := c.race_asian_alone
    hisp_not_hisp := c.hisp_not_hisp
    transport_drive_alone := c.transport_drive_alone
    transport_public := c.transport_public
    transport_walk := c.transport_walk
    healthins_none := c.healthins_none
    time_elapsed_since_firstpos := days
    days_elapsed_since_firstpos := days
    pos_per100k := pos_rate
    death_per100k := death_rate
    adj_multiplier := mult
    adj_pos_per100k := pos_rate * mult
    adj_death_per100k := death_rate * mult }

/-- Cell 11, line 2: `data['time_elapsed_since_firstpos']
.astype('timedelta64[D]').astype(int)`.  The left join of cell 9 leaves
first_obs_dt null (NaT) for a state with no firstcase row; the day conversion
then yields NaN and `.astype(int)` raises ValueError, because an int64 column
cannot represent a missing value.  So a joined pair whose state has a
first-observation date yields a finished row, and one whose state has none
makes the whole pipeline fail with the pandas error. -/
def mkMetricRow (fo : String → Option Nat) (p : CaseRecord × CensusRecord) :
    Except String MetricRow :=
  match fo p.1.state with
  | none => .error errNonFinite
  | some f => .ok (mkRow p.1 p.2 f)

/-- Column-wise application of a fallible per-row computation: the first row
that fails aborts the whole computation with its error, mirroring a pandas
column operation that raises. -/
def mapExcept (f : α → Except String β) : List α → Except String (List β)
  | [] => .ok []
  | a :: l =>
    match f a with
    | .error e => .error e
    | .ok b =>
      match mapExcept f l with
      | .error e => .error e
      | .ok bs => .ok (b :: bs)

/-- The whole core transform, cells 8 to 12: derive the first-observation
mapping from virus_df, inner-join virus_df to census_df, and compute the
derived columns of every joined row; fails with the pandas astype error when
any joined row's state has no first observation. -/
def computeMetrics (virus_df : List CaseRecord)
    (census_df : List CensusRecord) : Except String (List MetricRow) :=
  mapExcept (mkMetricRow (firstObs virus_df)) (joinRows virus_df census_df)

/-- The emitted rows of a pipeline result (empty when the pipeline failed). -/
def rowsOf (e : Except String (List MetricRow)) : List MetricRow :=
  e.toOption.getD []

/-! Concrete input fixtures used to evaluate the pipeline at explicit data. -/

/-- A case record with the given state, date, positive and death counts and
every other count missing. -/
def caseOf (st : String) (d : Nat) (pos dth : Option Int) : CaseRecord :=
  { state := st, obs_dt := d, positive := pos, negative := none,
    pending := none, hospitalized := none, death := dth, total := none }

/-- A census record with the given key, name and population and nominal
values for the remaining demographic columns. -/
def censusOf (key nm : String) (pop : Int) : CensusRecord :=
  { state_cd := key, state_name := nm, population_total := pop,
    median_age_male := 35, median_age_female := 37, race_white_alone := 1,
    race_afr_alone := 1, race_asian_alone := 1, hisp_not_hisp := 1,
    transport_drive_alone := 1, transport_public := 1, transport_walk := 1,
    healthins_none := 1 }

/-- A well-behaved single-state input: one observation on day 10 with 10
positives and 1 death, first positive observation also on day 10. -/
def vdOk : List CaseRecord := [caseOf "WY" 10 (some 10) (some 1)]

/-- Census input matching `vdOk`, population 500000. -/
def cdOk : List CensusRecord := [censusOf "WY" "Wyoming" 500000]

/-- The rows the pipeline emits on the well-behaved input. -/
def rowsOk : List MetricRow := rowsOf (computeMetrics vdOk cdOk)

/-- The single row the pipeline emits on the well-behaved input. -/
def rowOk : MetricRow := rowsOk.headI

/-- Input with a null-positive record on day 0 dated before the state's first
non-null positive record on day 5: its elapsed days come out negative. -/
def vdNegDays : List CaseRecord :=
  [caseOf "AK" 0 none none, caseOf "AK" 5 (some 1) none]

/-- Census input matching `vdNegDays`. -/
def cdNegDays : List CensusRecord := [censusOf "AK" "Alaska" 1000]

/-- The rows emitted on the negative-elapsed-days input. -/
def rowsNegDays : List MetricRow := rowsOf (computeMetrics vdNegDays cdNegDays)

/-- The row built from the day-0 null-positive record of `vdNegDays`. -/
def rowNegDays : MetricRow := rowsNegDays.headI

/-- Input whose only state has no record with a non-null positive, so the
state has no firstcase entry at all. -/
def vdNoBase : List CaseRecord := [caseOf "AK" 3 none none]

/-- Census input matching `vdNoBase`. -/
def cdNoBase : List CensusRecord := [censusOf "AK" "Alaska" 1000]

/-- Case input for the zero-population scenario: 7 positives on day 3. -/
def vdZeroPop : List CaseRecord := [caseOf "WY" 3 (some 7) (some 2)]

/-- Census input whose population column is 0. -/
def cdZeroPop : List CensusRecord := [censusOf "WY" "Wyoming" 0]

/-- The rows emitted on the zero-population input. -/
def rowsZeroPop : List MetricRow := rowsOf (computeMetrics vdZeroPop cdZeroPop)

/-- The single row emitted on the zero-population input. -/
def rowZeroPop : MetricRow := rowsZeroPop.headI

/-- A case record whose postal code ZZ matches no state in any census table. -/
def caseZZ : CaseRecord := caseOf "ZZ" 4 (some 5) none

/-- Case input holding only the unknown-state record. -/
def vdUnknown : List CaseRecord := [caseZZ]

/-- Census input without any ZZ row. -/
def cdUnknown : List CensusRecord := [censusOf "WY" "Wyoming" 500000]

/-! Helper lemmas about the embedded operations. -/

theorem mapExcept_ok_mem {α β : Type} {f : α → Except String β} :
    ∀ {l : List α} {ys : List β}, mapExcept f l = .ok ys →
      ∀ y ∈ ys, ∃ x ∈ l, f x = .ok y := by
  intro l
  induction l with
  | nil =>
    intro ys h y hy
    simp only [mapExcept, Except.ok.injEq] at h
    subst h
    simp at hy
  | cons a l ih =>
    intro ys h y hy
    simp only [mapExcept] at h
    cases hfa : f a with
    | error e => rw [hfa] at h; simp at h
    | ok b =>
      rw [hfa] at h
      cases hml : mapExcept f l with
      | error e => rw [hml] at h; simp at h
      | ok bs =>
        rw [hml] at h
        simp only [Except.ok.injEq] at h
        subst h
        rcases List.mem_cons.mp hy with rfl | hy2
        · exact ⟨a, List.mem_cons_self a l, hfa⟩
        · obtain ⟨x, hx, hfx⟩ := ih hml y hy2
          exact ⟨x, List.mem_cons_of_mem a hx, hfx⟩

theorem mapExcept_ok_of_forall {α β : Type} {f : α → Except String β} :
    ∀ {l : List α}, (∀ x ∈ l, ∃ y, f x = .ok y) →
      ∃ ys, mapExcept f l = .ok ys := by
  intro l
  induction l with
  | nil => intro _; exact ⟨[], rfl⟩
  | cons a l ih =>
    intro h
    obtain ⟨b, hb⟩ := h a (List.mem_cons_self a l)
    obtain ⟨bs, hbs⟩ := ih (fun x hx => h x (List.mem_cons_of_mem a hx))
    exact ⟨b :: bs, by simp only [mapExcept, hb, hbs]⟩

theorem mapExcept_error_of_mem {α β : Type} {f : α → Except String β} :
    ∀ {l : List α} {x : α} {e : String}, x ∈ l → f x = .error e →
      ∃ e2, mapExcept f l = .error e2 := by
  intro l
  induction l with
  | nil => intro x e hx _; simp at hx
  | cons a l ih =>
    intro x e hx hfx
    rcases List.mem_cons.mp hx with rfl | hx2
    · exact ⟨e, by simp only [mapExcept, hfx]⟩
    · cases hfa : f a with
      | error e3 => exact ⟨e3, by simp only [mapExcept, hfa]⟩
      | ok b =>
        obtain ⟨e2, he2⟩ := ih hx2 hfx
        exact ⟨e2, by simp only [mapExcept, hfa, he2]⟩

theorem except_toOption_isSome {γ : Type} (e : Except String γ) :
    e.toOption.isSome = true ↔ ∃ y, e = .ok y := by
  cases e <;> simp [Except.toOption]

theorem mem_joinRows {vd : List CaseRecord} {cd : List CensusRecord}
    {s : CaseRecord} {c : CensusRecord} :
    (s, c) ∈ joinRows vd cd ↔ s ∈ vd ∧ c ∈ cd ∧ c.state_cd = s.state := by
  simp only [joinRows, List.mem_flatMap, List.mem_map, List.mem_filter,
    beq_iff_eq, Prod.mk.injEq]
  constructor
  · rintro ⟨a, ha, x, ⟨hx, heq⟩, rfl, rfl⟩
    exact ⟨ha, hx, heq⟩
  · rintro ⟨hs, hc, heq⟩
    exact ⟨s, hs, c, ⟨hc, heq⟩, rfl, rfl⟩

theorem firstObs_eq_some_iff {vd : List CaseRecord} {st : String} {d : Nat} :
    firstObs vd st = some d ↔
      ((∃ r ∈ vd, r.state = st ∧ r.positive.isSome = true ∧ r.obs_dt = d) ∧
       ∀ r ∈ vd, r.state = st → r.positive.isSome = true → d ≤ r.obs_dt) := by
  unfold firstObs
  rw [List.min?_eq_some_iff (fun a => le_refl a) (fun a b => min_choice a b)
    (fun a b c => le_min_iff)]
  simp only [List.mem_map, List.mem_filter, Bool.and_eq_true, beq_iff_eq]
  constructor
  · rintro ⟨⟨r, ⟨hr, hst, hpos⟩, rfl⟩, hmin⟩
    refine ⟨⟨r, hr, hst, hpos, rfl⟩, ?_⟩
    intro q hq hqst hqpos
    exact hmin q.obs_dt ⟨q, ⟨hq, hqst, hqpos⟩, rfl⟩
  · rintro ⟨⟨r, hr, hst, hpos, rfl⟩, hmin⟩
    refine ⟨⟨r, ⟨hr, hst, hpos⟩, rfl⟩, ?_⟩
    rintro b ⟨q, ⟨hq, hqst, hqpos⟩, rfl⟩
    exact hmin q hq hqst hqpos

theorem firstObs_eq_none_iff {vd : List CaseRecord} {st : String} :
    firstObs vd st = none ↔ ∀ r ∈ vd, r.state = st → r.positive = none := by
  unfold firstObs
  rw [List.min?_eq_none_iff]
  simp only [List.map_eq_nil_iff, List.filter_eq_nil_iff, Bool.and_eq_true,
    beq_iff_eq, not_and]
  constructor
  · intro h r hr hst
    have h2 := h r hr hst
    cases hp : r.positive with
    | none => rfl
    | some v => rw [hp] at h2; simp at h2
  · intro h r hr hst
    rw [h r hr hst]
    simp

theorem firstObs_isSome_iff {vd : List CaseRecord} {st : String} :
    (firstObs vd st).isSome = true ↔
      ∃ r ∈ vd, r.state = st ∧ r.positive.isSome = true := by
  rw [Option.isSome_iff_ne_none, Ne, firstObs_eq_none_iff]
  push_neg
  constructor
  · rintro ⟨r, hr, hst, hp⟩
    exact ⟨r, hr, hst, Option.isSome_iff_ne_none.mpr hp⟩
  · rintro ⟨r, hr, hst, hp⟩
    exact ⟨r, hr, hst, Option.isSome_iff_ne_none.mp hp⟩

theorem mem_rows_of_ok {vd : List CaseRecord} {cd : List CensusRecord}
    {rows : List MetricRow} {r : MetricRow}
    (h : computeMetrics vd cd = .ok rows) (hr : r ∈ rows) :
    ∃ s c f, s ∈ vd ∧ c ∈ cd ∧ c.state_cd = s.state ∧
      firstObs vd s.state = some f ∧ r = mkRow s c f := by
  obtain ⟨p, hp, hpr⟩ := mapExcept_ok_mem h r hr
  obtain ⟨s, c⟩ := p
  obtain ⟨hs, hc, hsc⟩ := mem_joinRows.mp hp
  cases hfo : firstObs vd s.state with
  | none => simp [mkMetricRow, hfo] at hpr
  | some f =>
    simp only [mkMetricRow, hfo, Except.ok.injEq] at hpr
    exact ⟨s, c, f, hs, hc, hsc, hfo, hpr.symm⟩

theorem mapExcept_congr {α β : Type} {f g : α → Except String β} :
    ∀ {l : List α}, (∀ x ∈ l, f x = g x) → mapExcept f l = mapExcept g l := by
  intro l
  induction l with
  | nil => intro _; rfl
  | cons a l ih =>
    intro h
    simp only [mapExcept, h a (List.mem_cons_self a l),
      ih (fun x hx => h x (List.mem_cons_of_mem a hx))]

theorem firstObs_cons_ne {r0 : CaseRecord} {vd : List CaseRecord} {st : String}
    (hne : r0.state ≠ st) : firstObs (r0 :: vd) st = firstObs vd st := by
  unfold firstObs
  have hfalse : (r0.state == st && r0.positive.isSome) = false := by
    simp [hne]
  simp [List.filter_cons, hfalse]

theorem mkRow_state (s : CaseRecord) (c : CensusRecord) (f : Nat) :
    (mkRow s c f).state = s.state := rfl

theorem mkRow_first_obs_dt (s : CaseRecord) (c : CensusRecord) (f : Nat) :
    (mkRow s c f).first_obs_dt = f := rfl

theorem mkRow_adj_multiplier_eq (s : CaseRecord) (c : CensusRecord) (f : Nat) :
    (mkRow s c f).adj_multiplier =
      adj_multiplier ((mkRow s c f).days_elapsed_since_firstpos) := rfl

theorem adj_multiplier_bounds {d : Int} (hd : 0 ≤ d) :
    0 ≤ adj_multiplier d ∧ adj_multiplier d < 1 ∧
      (adj_multiplier d = 0 ↔ d = 0) := by
  have hq : (0 : ℚ) ≤ (d : ℚ) := by exact_mod_cast hd
  have hpos : (0 : ℚ) < 1 + (d : ℚ) := by linarith
  unfold adj_multiplier
  refine ⟨div_nonneg hq (le_of_lt hpos), ?_, ?_⟩
  · rw [div_lt_one hpos]
    linarith
  · rw [div_eq_zero_iff]
    constructor
    · rintro (h0 | h0)
      · exact_mod_cast h0
      · exfalso; linarith
    · intro h0
      exact Or.inl (by exact_mod_cast h0)

/-! Claim theorems. -/

/-- Claim C3: for any set of case records, the firstcase query maps each state
having at least one record with a non-null positive value (a recorded zero
qualifies, a null does not) to the minimum observation date among the records
of that state with non-null positive, and a state with no qualifying record
has no entry in the mapping. -/
theorem firstObs_min_spec (vd : List CaseRecord) (st : String) :
    (∀ d, firstObs vd st = some d ↔
      ((∃ r ∈ vd, r.state = st ∧ r.positive.isSome = true ∧ r.obs_dt = d) ∧
       ∀ r ∈ vd, r.state = st → r.positive.isSome = true → d ≤ r.obs_dt)) ∧
    (firstObs vd st = none ↔ ∀ r ∈ vd, r.state = st → r.positive = none) :=
  ⟨fun _ => firstObs_eq_some_iff, firstObs_eq_none_iff⟩

/-- Witness for C3 at a concrete input: the single qualifying record of vdOk
is on day 10, so the mapping sends WY to day 10. -/
theorem firstObs_min_spec_witness : firstObs vdOk "WY" = some 10 :=
  ((firstObs_min_spec vdOk "WY").1 10).mpr
    ⟨⟨caseOf "WY" 10 (some 10) (some 1), by simp [vdOk], rfl, rfl, rfl⟩,
     by intro r hr h1 h2; simp [vdOk] at hr; subst hr; rfl⟩

/-- Claim C4: the pipeline never produces a MetricRow for a state absent from
the demographic input; every emitted row carries a state that some census
record matches, so case records of states missing from the census are dropped
by the inner join. -/
theorem inner_join_state_universe {vd : List CaseRecord}
    {cd : List CensusRecord} {rows : List MetricRow} {r : MetricRow}
    (h : computeMetrics vd cd = .ok rows) (hr : r ∈ rows) :
    ∃ c ∈ cd, c.state_cd = r.state := by
  obtain ⟨s, c, f, -, hc, hsc, -, rfl⟩ := mem_rows_of_ok h hr
  exact ⟨c, hc, by rw [mkRow_state]; exact hsc⟩

/-- Witness for C4 at a concrete input. -/
theorem inner_join_state_universe_witness : ∃ c ∈ cdOk, c.state_cd = rowOk.state :=
  inner_join_state_universe
    (rfl : computeMetrics vdOk cdOk = Except.ok rowsOk)
    (List.Mem.head _ : rowOk ∈ rowsOk)

/-- Claim C9: the core transform is deterministic; two runs on the same
materialized inputs produce the same rows. -/
theorem pipeline_deterministic {vd : List CaseRecord} {cd : List CensusRecord}
    {rows1 rows2 : List MetricRow}
    (h1 : computeMetrics vd cd = .ok rows1)
    (h2 : computeMetrics vd cd = .ok rows2) : rows1 = rows2 :=
  Except.ok.inj (h1.symm.trans h2)

/-- Witness for C9 at a concrete input. -/
theorem pipeline_deterministic_witness : rowsOk = rowsOk :=
  pipeline_deterministic
    (rfl : computeMetrics vdOk cdOk = Except.ok rowsOk)
    (rfl : computeMetrics vdOk cdOk = Except.ok rowsOk)

/-- Claim C10: every emitted row carries exactly the first-observation date of
its state (the firstcase mapping is keyed by state, not by state and date, so
rows whose own positive is null still receive the baseline), and the mapping
has an entry for a state exactly when some record of that state has a
non-null positive value. -/
theorem baseline_keyed_by_state (vd : List CaseRecord)
    (cd : List CensusRecord) (st : String) :
    (∀ rows r, computeMetrics vd cd = .ok rows → r ∈ rows →
      firstObs vd r.state = some r.first_obs_dt) ∧
    ((firstObs vd st).isSome = true ↔
      ∃ q ∈ vd, q.state = st ∧ q.positive.isSome = true) := by
  refine ⟨?_, firstObs_isSome_iff⟩
  intro rows r h hr
  obtain ⟨s, c, f, -, -, -, hfo, rfl⟩ := mem_rows_of_ok h hr
  rw [mkRow_state, mkRow_first_obs_dt]
  exact hfo

/-- Witness for C10 at a concrete input. -/
theorem baseline_keyed_by_state_witness :
    firstObs vdOk rowOk.state = some rowOk.first_obs_dt :=
  (baseline_keyed_by_state vdOk cdOk "WY").1 rowsOk rowOk
    (rfl : computeMetrics vdOk cdOk = Except.ok rowsOk)
    (List.Mem.head _ : rowOk ∈ rowsOk)

/-- Claim C5: every emitted row holds the six count columns of its source case
record with null coalesced to zero, its per-100,000 rates equal
100000 times the coalesced count divided by the population, computed
independently for the positive and death rates, and the coalescing is not
applied to the first-observation qualification test, which checks
non-nullness of the raw positive column. -/
theorem coalesce_and_rates {vd : List CaseRecord} {cd : List CensusRecord}
    {rows : List MetricRow} {r : MetricRow}
    (h : computeMetrics vd cd = .ok rows) (hr : r ∈ rows) :
    (∃ s ∈ vd, r.positive = s.positive.getD 0 ∧
      r.negative = s.negative.getD 0 ∧ r.pending = s.pending.getD 0 ∧
      r.hospitalized = s.hospitalized.getD 0 ∧ r.death = s.death.getD 0 ∧
      r.total = s.total.getD 0) ∧
    r.pos_per100k = 100000 * ((r.positive : ℚ) / (r.population : ℚ)) ∧
    r.death_per100k = 100000 * ((r.death : ℚ) / (r.population : ℚ)) ∧
    (∀ st, (firstObs vd st).isSome = true ↔
      ∃ q ∈ vd, q.state = st ∧ q.positive.isSome = true) := by
  obtain ⟨s, c, f, hs, -, -, -, rfl⟩ := mem_rows_of_ok h hr
  exact ⟨⟨s, hs, rfl, rfl, rfl, rfl, rfl, rfl⟩, rfl, rfl,
    fun st => firstObs_isSome_iff⟩

/-- Witness for C5 at a concrete input. -/
theorem coalesce_and_rates_witness :
    rowOk.pos_per100k = 100000 * ((rowOk.positive : ℚ) / (rowOk.population : ℚ)) :=
  (coalesce_and_rates
    (rfl : computeMetrics vdOk cdOk = Except.ok rowsOk)
    (List.Mem.head _ : rowOk ∈ rowsOk)).2.1

/-- Claim C6: every emitted row has each decay-adjusted rate equal to the
corresponding un-adjusted rate multiplied by the decay multiplier, applied
identically to the positive and death rates; after the integer conversion of
elapsed days succeeds, the multiplier column of an emitted row is never null,
so nullness of the adjusted rate and of the multiplier agree vacuously. -/
theorem adjusted_rates_product {vd : List CaseRecord} {cd : List CensusRecord}
    {rows : List MetricRow} {r : MetricRow}
    (h : computeMetrics vd cd = .ok rows) (hr : r ∈ rows) :
    r.adj_pos_per100k = r.pos_per100k * r.adj_multiplier ∧
    r.adj_death_per100k = r.death_per100k * r.adj_multiplier ∧
    r.adj_multiplier = adj_multiplier r.days_elapsed_since_firstpos := by
  obtain ⟨s, c, f, -, -, -, -, rfl⟩ := mem_rows_of_ok h hr
  exact ⟨rfl, rfl, rfl⟩

/-- Witness for C6 at a concrete input. -/
theorem adjusted_rates_product_witness :
    rowOk.adj_death_per100k = rowOk.death_per100k * rowOk.adj_multiplier :=
  (adjusted_rates_product
    (rfl : computeMetrics vdOk cdOk = Except.ok rowsOk)
    (List.Mem.head _ : rowOk ∈ rowsOk)).2.1

/-- Counterexample to C1 as stated: on the input vdNegDays, the record with a
null positive on day 0 precedes the first non-null positive observation of
its state on day 5, so the emitted row has elapsed days -5 and decay
multiplier 5/4, violating both the non-negativity of elapsed days and the
bound multiplier < 1. -/
theorem decay_multiplier_cex :
    rowNegDays ∈ rowsNegDays ∧
    rowNegDays.days_elapsed_since_firstpos = -5 ∧
    rowNegDays.adj_multiplier = 5 / 4 ∧
    ¬(0 ≤ rowNegDays.days_elapsed_since_firstpos) ∧
    ¬(rowNegDays.adj_multiplier < 1) := by
  have hm : rowNegDays.adj_multiplier =
      ((-5 : Int) : ℚ) / (1 + ((-5 : Int) : ℚ)) := rfl
  refine ⟨List.Mem.head _, by decide, ?_, by decide, ?_⟩
  · rw [hm]; norm_num
  · rw [hm]; norm_num

/-- Claim C1 amended: restricted to emitted rows whose elapsed days are
non-negative, that is, rows whose observation date is on or after the first
observation date of their state, the decay multiplier satisfies
0 <= multiplier < 1 and equals 0 exactly when elapsed days equal 0.  The
restriction is forced by the counterexample: a null-positive record dated
before the first non-null positive of its state yields negative elapsed days
and a multiplier of at least 1. -/
theorem decay_multiplier_bounds_amended {vd : List CaseRecord}
    {cd : List CensusRecord} {rows : List MetricRow} {r : MetricRow}
    (h : computeMetrics vd cd = .ok rows) (hr : r ∈ rows)
    (hd : 0 ≤ r.days_elapsed_since_firstpos) :
    0 ≤ r.adj_multiplier ∧ r.adj_multiplier < 1 ∧
      (r.adj_multiplier = 0 ↔ r.days_elapsed_since_firstpos = 0) := by
  have hm : r.adj_multiplier = adj_multiplier r.days_elapsed_since_firstpos := by
    obtain ⟨s, c, f, -, -, -, -, rfl⟩ := mem_rows_of_ok h hr
    rfl
  rw [hm]
  exact adj_multiplier_bounds hd

/-- Witness for the amended C1 at a concrete input. -/
theorem decay_multiplier_bounds_amended_witness :
    0 ≤ rowOk.days_elapsed_since_firstpos ∧
      (0 ≤ rowOk.adj_multiplier ∧ rowOk.adj_multiplier < 1 ∧
        (rowOk.adj_multiplier = 0 ↔ rowOk.days_elapsed_since_firstpos = 0)) :=
  ⟨by decide,
    decay_multiplier_bounds_amended
      (rfl : computeMetrics vdOk cdOk = Except.ok rowsOk)
      (List.Mem.head _ : rowOk ∈ rowsOk) (by decide)⟩

/-- Claim C2 settled against the code: on an input whose only state has no
record with a non-null positive, the left join keeps the joined row (the join
output has one row), but the conversion of the elapsed-days column to int
fails on the missing value, so the pipeline raises the pandas error instead
of emitting the row with null elapsed days and null adjusted metrics. -/
theorem missing_baseline_astype_error :
    computeMetrics vdNoBase cdNoBase = .error errNonFinite ∧
      (joinRows vdNoBase cdNoBase).length = 1 :=
  ⟨rfl, rfl⟩

/-- Counterexample to C7 as stated: on the zero-population input the pipeline
succeeds and emits a joined row with population 0 and positive count 7; no
error of any kind is surfaced for that row. -/
theorem population_zero_cex :
    (computeMetrics vdZeroPop cdZeroPop).toOption.isSome = true ∧
      rowZeroPop ∈ rowsZeroPop ∧ rowZeroPop.population = 0 ∧
      rowZeroPop.positive = 7 :=
  ⟨rfl, List.Mem.head _, rfl, rfl⟩

/-- Claim C7 amended: the code performs no population check at all.  Success
of the pipeline is characterized solely by the availability of a first
observation for every joined row, independently of population values, and
every emitted row carries the unguarded quotient 100000 * count / population
as its rate, which over floats is infinite or NaN at population 0 rather
than an InvalidPopulationError. -/
theorem population_zero_amended (vd : List CaseRecord)
    (cd : List CensusRecord) :
    ((computeMetrics vd cd).toOption.isSome = true ↔
      ∀ p ∈ joinRows vd cd, (firstObs vd p.1.state).isSome = true) ∧
    (∀ rows r, computeMetrics vd cd = .ok rows → r ∈ rows →
      r.pos_per100k = 100000 * ((r.positive : ℚ) / (r.population : ℚ)) ∧
      r.death_per100k = 100000 * ((r.death : ℚ) / (r.population : ℚ))) := by
  constructor
  · rw [except_toOption_isSome]
    constructor
    · rintro ⟨ys, hys⟩ p hp
      cases hfo : firstObs vd p.1.state with
      | some f => rfl
      | none =>
        exfalso
        have herr : mkMetricRow (firstObs vd) p = .error errNonFinite := by
          simp [mkMetricRow, hfo]
        obtain ⟨e2, he2⟩ := mapExcept_error_of_mem hp herr
        unfold computeMetrics at hys
        rw [he2] at hys
        simp at hys
    · intro hall
      apply mapExcept_ok_of_forall
      intro p hp
      cases hfo : firstObs vd p.1.state with
      | none =>
        have hfalse := hall p hp
        rw [hfo] at hfalse
        simp at hfalse
      | some f => exact ⟨mkRow p.1 p.2 f, by simp [mkMetricRow, hfo]⟩
  · intro rows r h hr
    obtain ⟨s, c, f, -, -, -, -, rfl⟩ := mem_rows_of_ok h hr
    exact ⟨rfl, rfl⟩

/-- Witness for the amended C7 at the zero-population input. -/
theorem population_zero_amended_witness :
    rowZeroPop.pos_per100k =
      100000 * ((rowZeroPop.positive : ℚ) / (rowZeroPop.population : ℚ)) :=
  ((population_zero_amended vdZeroPop cdZeroPop).2 rowsZeroPop rowZeroPop
    (rfl : computeMetrics vdZeroPop cdZeroPop = Except.ok rowsZeroPop)
    (List.Mem.head _ : rowZeroPop ∈ rowsZeroPop)).1

/-- Counterexample to C8 as stated: with a case record for the unknown postal
code ZZ and a census table without ZZ, the pipeline returns ok with an empty
row list; it raises no UnknownStateError and the record disappears silently. -/
theorem unknown_state_cex :
    computeMetrics vdUnknown cdUnknown = .ok ([] : List MetricRow) := rfl

/-- Claim C8 amended: a case record whose state matches no census record is
silently dropped by the inner join; adding such a record to the case input
leaves the pipeline output completely unchanged, so no error is raised and
no MetricRow is produced for the unknown code. -/
theorem unknown_state_amended (vd : List CaseRecord) (cd : List CensusRecord)
    (r0 : CaseRecord) (h : ∀ c ∈ cd, c.state_cd ≠ r0.state) :
    computeMetrics (r0 :: vd) cd = computeMetrics vd cd := by
  have hfil : cd.filter (fun c => c.state_cd == r0.state) = [] :=
    List.filter_eq_nil_iff.mpr (fun c hc => by
      simp only [beq_iff_eq]
      exact h c hc)
  have hjoin : joinRows (r0 :: vd) cd = joinRows vd cd := by
    simp [joinRows, hfil]
  unfold computeMetrics
  rw [hjoin]
  apply mapExcept_congr
  intro p hp
  obtain ⟨s, c⟩ := p
  obtain ⟨hs, hc, hsc⟩ := mem_joinRows.mp hp
  have hne : r0.state ≠ s.state := by
    rw [← hsc]
    exact fun heq => h c hc heq.symm
  have hfo : firstObs (r0 :: vd) s.state = firstObs vd s.state :=
    firstObs_cons_ne hne
  simp only [mkMetricRow, hfo]

/-- Witness for the amended C8: prepending the ZZ record to the well-behaved
input leaves the output unchanged. -/
theorem unknown_state_amended_witness :
    computeMetrics (caseZZ :: vdOk) cdOk = computeMetrics vdOk cdOk :=
  unknown_state_amended vdOk cdOk caseZZ (by decide)

end Covid19
